import Mathlib

/-
Verification of the yt-chatbot browser side-panel logic
(src/chrome_extension/sidepanel.js) against its specification.

The panel state and the two operations, connectToCurrentTab (tab
reconciliation) and handleSend (chat submission), are shallowly embedded
as pure Lean functions.  DOM mutations on the status element, the chat
history container, the input field and the send button become field
updates on an explicit PanelState record.  The asynchronous fetch call is
modelled by a FetchOutcome value handed to the part of handleSend that
runs after the await, and the single request the code issues is returned
alongside the new state.
-/

namespace YtChatbot

/-- Sender of a chat message: the user-message or bot-message CSS class
chosen in appendMessage. -/
inductive Sender
  | user
  | bot
deriving DecidableEq, Repr

/-- One rendered chat message: its textContent and its sender class. -/
structure Message where
  text : String
  sender : Sender
deriving DecidableEq, Repr

/-- One child of the chat-history container: either an ordinary message
div or the transient thinking placeholder div (the element with DOM id
loading-msg produced by appendLoading). -/
inductive Entry
  | msg (m : Message)
  | loading
deriving DecidableEq, Repr

/-- The side-panel UI state owned by sidepanel.js: the currentVideoId
variable, the status element text and class, the disabled flags of the
question input and of the send button, the input field value, whether
the input field has focus, and the children of the chat-history
container in document order. -/
structure PanelState where
  currentVideoId : Option String
  statusText : String
  statusClass : String
  inputDisabled : Bool
  sendDisabled : Bool
  inputValue : String
  inputFocused : Bool
  chatHistory : List Entry
deriving DecidableEq, Repr

/-- Chars strictly before the first occurrence of sep (the whole list
when sep does not occur). -/
def takeBefore (sep : Char) : List Char → List Char
  | [] => []
  | c :: rest => if c = sep then [] else c :: takeBefore sep rest

/-- Chars strictly after the first occurrence of sep, or none when sep
does not occur. -/
def dropThrough (sep : Char) : List Char → Option (List Char)
  | [] => none
  | c :: rest => if c = sep then some rest else dropThrough sep rest

/-- Split at every occurrence of sep; the concatenation of the pieces
interleaved with sep restores the input. -/
def splitOnChar (sep : Char) : List Char → List (List Char)
  | [] => [[]]
  | c :: rest =>
    if c = sep then [] :: splitOnChar sep rest
    else
      match splitOnChar sep rest with
      | [] => [[c]]
      | g :: gs => (c :: g) :: gs

/-- Whether pat occurs as a contiguous sublist. -/
def hasSubList (pat : List Char) : List Char → Bool
  | [] => pat.isEmpty
  | c :: rest => pat.isPrefixOf (c :: rest) || hasSubList pat rest

/-- JS String.prototype.includes: true exactly when the pattern occurs as
a substring. -/
def jsIncludes (s pat : String) : Bool :=
  hasSubList pat.data s.data

/-- The whitespace JS String.prototype.trim removes, restricted to the
ASCII range (the full JS set also has some Unicode space separators,
irrelevant to the claims). -/
def jsWhitespace (c : Char) : Bool :=
  c = ' ' || c = '\t' || c = '\n' || c = '\r' || c = '\x0b' || c = '\x0c'

/-- JS String.prototype.trim: strip leading and trailing whitespace. -/
def jsTrim (s : String) : String :=
  String.mk (((s.data.dropWhile jsWhitespace).reverse.dropWhile jsWhitespace).reverse)

/-- JS truthiness of a value that is either a string or null or undefined
(an Option String here): null and the empty string are falsy. -/
def jsTruthyStrOpt : Option String → Bool
  | none => false
  | some s => !s.isEmpty

/-- Value of a hexadecimal digit character, if it is one. -/
def hexDigitVal (c : Char) : Option Nat :=
  if '0' ≤ c ∧ c ≤ '9' then some (c.toNat - '0'.toNat)
  else if 'a' ≤ c ∧ c ≤ 'f' then some (c.toNat - 'a'.toNat + 10)
  else if 'A' ≤ c ∧ c ≤ 'F' then some (c.toNat - 'A'.toNat + 10)
  else none

/-- Character-level application/x-www-form-urlencoded decoding as done by
URLSearchParams: a plus becomes a space, a percent followed by two hex
digits becomes the character with that code (multi-byte UTF-8 percent
sequences are out of scope; the claims only involve ASCII), anything
else is kept. -/
def formDecodeAux : List Char → List Char
  | [] => []
  | '+' :: rest => ' ' :: formDecodeAux rest
  | '%' :: a :: b :: rest =>
    match hexDigitVal a, hexDigitVal b with
    | some hi, some lo => Char.ofNat (16 * hi + lo) :: formDecodeAux rest
    | _, _ => '%' :: formDecodeAux (a :: b :: rest)
  | c :: rest => c :: formDecodeAux rest

/-- The query component of a URL: everything after the first question
mark and before the fragment, empty when there is no question mark.
This is new URL(url).search with its leading question mark already
stripped off, which is exactly what feeding it to URLSearchParams does
next in the code.  (The URL constructor is a browser builtin; tab URLs
are always well-formed absolute URLs, so the model takes the textual
query component directly.) -/
def queryOf (url : List Char) : List Char :=
  (dropThrough '?' (takeBefore '#' url)).getD []

/-- The name/value pairs URLSearchParams extracts from a query string:
split on ampersands, skip empty segments, split each segment at its
first equals sign (value empty when there is no equals sign), and
form-urldecode both halves. -/
def queryPairs (q : List Char) : List (List Char × List Char) :=
  ((splitOnChar '&' q).filter (fun seg => !seg.isEmpty)).map
    (fun seg => (formDecodeAux (takeBefore '=' seg),
                 formDecodeAux ((dropThrough '=' seg).getD [])))

/-- The videoId the code reads from a tab URL: urlParams.get with name v
on new URLSearchParams(new URL(tab.url).search), i.e. the value of the
first v parameter of the query component, or null (none) when there is
no v parameter. -/
def urlVideoId (url : String) : Option String :=
  ((queryPairs (queryOf url.data)).find? (fun p => p.1 = ['v'])).map
    (fun p => String.mk p.2)

/-- The initial bot greeting the code installs as the whole chat history
when connecting to a new video (its textContent, whitespace
normalised). -/
def greetingMessage : Message :=
  { text := "Hello! I\x27m ready to answer questions about this video.",
    sender := Sender.bot }

/-- handleDisconnect(reason): clear currentVideoId, show the reason in
the status element with the error class, disable both input controls.
The chat history is left untouched. -/
def handleDisconnect (reason : String) (st : PanelState) : PanelState :=
  { st with currentVideoId := none, statusText := reason,
            statusClass := "status error",
            inputDisabled := true, sendDisabled := true }

/-- connectToCurrentTab, as a function of the observed active-tab URL
(none when the query returned no tab or the tab has no URL; the empty
string is falsy in JS so it takes the same branch as an absent URL).
If the URL contains youtube.com/watch, the v query parameter is read;
a truthy videoId differing from currentVideoId connects to the new
video, resetting the history to the single greeting; a truthy videoId
equal to currentVideoId changes nothing; a falsy videoId disconnects
with reason No Video ID; a non-watch URL disconnects with reason Not
YouTube. -/
def connectToCurrentTab (tabUrl : Option String) (st : PanelState) : PanelState :=
  match tabUrl with
  | some url =>
    if !url.isEmpty && jsIncludes url "youtube.com/watch" then
      let videoId := urlVideoId url
      if jsTruthyStrOpt videoId then
        if videoId ≠ st.currentVideoId then
          { st with currentVideoId := videoId,
                    statusText := "Connected",
                    statusClass := "status connected",
                    inputDisabled := false, sendDisabled := false,
                    chatHistory := [Entry.msg greetingMessage] }
        else st
      else handleDisconnect "No Video ID" st
    else handleDisconnect "Not YouTube" st
  | none => handleDisconnect "Not YouTube" st

/-- The video identifier a reconciliation run observes on a tab URL: the
value that reaches the truthy branch of connectToCurrentTab, none when
the run disconnects instead. -/
def observedVideoId (tabUrl : Option String) : Option String :=
  match tabUrl with
  | some url =>
    if !url.isEmpty && jsIncludes url "youtube.com/watch" then
      if jsTruthyStrOpt (urlVideoId url) then urlVideoId url else none
    else none
  | none => none

/-- appendMessage(text, sender): append one message div to the chat
history and scroll it into view (scrolling has no modelled effect). -/
def appendMessage (text : String) (sender : Sender) (st : PanelState) : PanelState :=
  { st with chatHistory := st.chatHistory ++ [Entry.msg { text := text, sender := sender }] }

/-- appendLoading(): append the thinking placeholder div with DOM id
loading-msg to the chat history. -/
def appendLoading (st : PanelState) : PanelState :=
  { st with chatHistory := st.chatHistory ++ [Entry.loading] }

/-- Remove the first loading entry, if any: getElementById returns the
first element with the id loading-msg in document order, and
removeLoading removes it when present. -/
def removeFirstLoading : List Entry → List Entry
  | [] => []
  | Entry.loading :: rest => rest
  | e :: rest => e :: removeFirstLoading rest

/-- removeLoading(): remove the placeholder div, a no-op when absent. -/
def removeLoading (st : PanelState) : PanelState :=
  { st with chatHistory := removeFirstLoading st.chatHistory }

/-- The one HTTP request handleSend issues via fetch: target URL, method,
content type header, and the two fields of the JSON body. -/
structure ChatRequest where
  url : String
  method : String
  contentType : String
  video_id : String
  question : String
deriving DecidableEq, Repr

/-- How the awaited fetch and the subsequent response.json() resolve:
either a response whose body parsed as JSON, with its ok flag and the
optional answer and error fields of the parsed object, or a throw into
the catch block (network failure, or a body that is not JSON). -/
inductive FetchOutcome
  | resolved (ok : Bool) (answer : Option String) (error : Option String)
  | thrown
deriving DecidableEq, Repr

/-- JS logical-or fallback on an optional string field, as in the
expression data.error or else the server-error fallback: an absent
field and the empty string are both falsy. -/
def jsOrString (v : Option String) (fallback : String) : String :=
  match v with
  | some s => if s.isEmpty then fallback else s
  | none => fallback

/-- Assigning a possibly absent JS value to textContent: an undefined
field renders as the string undefined. -/
def jsTextContent : Option String → String
  | some s => s
  | none => "undefined"

/-- The first half of handleSend, up to and including the fetch call:
read and trim the input value; return none (no observable effect) when
the trimmed question is empty or currentVideoId is falsy; otherwise
append the user message, clear the input, disable both controls, append
the thinking placeholder, and issue the one POST request to the chat
endpoint with body fields video_id and question.  The result is the
state in which the request is outstanding, paired with the request. -/
def handleSendPending (st : PanelState) : Option (PanelState × ChatRequest) :=
  let question := jsTrim st.inputValue
  if question.isEmpty || !jsTruthyStrOpt st.currentVideoId then none
  else
    let st1 := appendMessage question Sender.user st
    let st2 := { st1 with inputValue := "", inputDisabled := true, sendDisabled := true }
    let st3 := appendLoading st2
    some (st3,
      { url := "http://localhost:5000/chat", method := "POST",
        contentType := "application/json",
        video_id := st.currentVideoId.getD "", question := question })

/-- The second half of handleSend, after the await: on a parsed response
remove the placeholder and append the answer (ok) or the error message
built from the error field with the server-error fallback (not ok); on
a throw remove the placeholder and append the could-not-connect
message; in the finally block re-enable both controls and focus the
input field. -/
def handleSendFinish (outcome : FetchOutcome) (st : PanelState) : PanelState :=
  let st2 :=
    match outcome with
    | FetchOutcome.resolved ok answer err =>
      if ok then appendMessage (jsTextContent answer) Sender.bot (removeLoading st)
      else appendMessage ("Error: " ++ jsOrString err "Server error") Sender.bot (removeLoading st)
    | FetchOutcome.thrown =>
      appendMessage "Error: Could not connect to server. Make sure app.py is running."
        Sender.bot (removeLoading st)
  { st2 with inputDisabled := false, sendDisabled := false, inputFocused := true }

/-- A whole run of handleSend for a given outcome of its one fetch: the
final state together with the list of requests issued (empty on the
guard path, a singleton otherwise). -/
def handleSend (outcome : FetchOutcome) (st : PanelState) : PanelState × List ChatRequest :=
  match handleSendPending st with
  | none => (st, [])
  | some (stP, req) => (handleSendFinish outcome stP, [req])

/-- The text of the single bot message a completed submission appends,
by outcome: the rendered answer field on ok, the error-field message
with fallback on a non-ok response, the fixed could-not-connect text on
a throw.  This mirrors the three branches of handleSendFinish. -/
def botTextOf : FetchOutcome → String
  | FetchOutcome.resolved ok answer err =>
    if ok then jsTextContent answer else "Error: " ++ jsOrString err "Server error"
  | FetchOutcome.thrown => "Error: Could not connect to server. Make sure app.py is running."

/-- Number of thinking placeholders among the children of the chat
history container. -/
def loadingCount : List Entry → Nat
  | [] => 0
  | Entry.loading :: rest => loadingCount rest + 1
  | _ :: rest => loadingCount rest

/-- A freshly loaded panel before the first reconciliation: no video, no
messages, controls disabled. -/
def sampleState : PanelState :=
  { currentVideoId := none, statusText := "", statusClass := "status",
    inputDisabled := true, sendDisabled := true, inputValue := "",
    inputFocused := false, chatHistory := [] }

/-- A panel connected to video abc123 with a question typed into the
input field. -/
def sampleConnected : PanelState :=
  { currentVideoId := some "abc123", statusText := "Connected",
    statusClass := "status connected", inputDisabled := false, sendDisabled := false,
    inputValue := "What is this video about?", inputFocused := false,
    chatHistory := [Entry.msg greetingMessage] }

/-- The state of sampleConnected while its submission is outstanding:
user message and placeholder appended, input cleared, controls
disabled. -/
def samplePending : PanelState :=
  { currentVideoId := some "abc123", statusText := "Connected",
    statusClass := "status connected", inputDisabled := true, sendDisabled := true,
    inputValue := "", inputFocused := false,
    chatHistory := [Entry.msg greetingMessage,
                    Entry.msg { text := "What is this video about?", sender := Sender.user },
                    Entry.loading] }

/-- The request the submission from sampleConnected issues. -/
def sampleRequest : ChatRequest :=
  { url := "http://localhost:5000/chat", method := "POST",
    contentType := "application/json", video_id := "abc123",
    question := "What is this video about?" }

theorem loadingCount_append (a b : List Entry) :
    loadingCount (a ++ b) = loadingCount a + loadingCount b := by
  induction a with
  | nil => simp [loadingCount]
  | cons e rest ih =>
    cases e with
    | loading => simp [loadingCount, ih]; omega
    | msg m => simp [loadingCount, ih]

theorem removeFirstLoading_of_count_zero (l : List Entry)
    (h : loadingCount l = 0) : removeFirstLoading l = l := by
  induction l with
  | nil => rfl
  | cons e rest ih =>
    cases e with
    | loading => simp [loadingCount] at h
    | msg m =>
      simp [loadingCount] at h
      simp [removeFirstLoading, ih h]

theorem loadingCount_removeFirstLoading (l : List Entry) :
    loadingCount (removeFirstLoading l) = loadingCount l - 1 := by
  induction l with
  | nil => rfl
  | cons e rest ih =>
    cases e with
    | loading => simp [removeFirstLoading, loadingCount]
    | msg m => simp [removeFirstLoading, loadingCount, ih]

theorem removeFirstLoading_append_loading (l : List Entry)
    (h : loadingCount l = 0) :
    removeFirstLoading (l ++ [Entry.loading]) = l := by
  induction l with
  | nil => rfl
  | cons e rest ih =>
    cases e with
    | loading => simp [loadingCount] at h
    | msg m =>
      simp [loadingCount] at h
      simp [removeFirstLoading, ih h]

theorem connect_of_observed_same (u : Option String) (st : PanelState)
    (h : observedVideoId u = st.currentVideoId)
    (ht : jsTruthyStrOpt st.currentVideoId = true) :
    connectToCurrentTab u st = st := by
  cases u with
  | none =>
    simp only [observedVideoId] at h
    rw [← h] at ht
    simp [jsTruthyStrOpt] at ht
  | some url =>
    simp only [observedVideoId] at h
    by_cases hg : (!url.isEmpty && jsIncludes url "youtube.com/watch") = true
    · rw [if_pos hg] at h
      by_cases hv : jsTruthyStrOpt (urlVideoId url) = true
      · rw [if_pos hv] at h
        simp [connectToCurrentTab, hg, hv, h, ht]
      · rw [if_neg hv] at h
        rw [← h] at ht
        simp [jsTruthyStrOpt] at ht
    · rw [if_neg hg] at h
      rw [← h] at ht
      simp [jsTruthyStrOpt] at ht

theorem connect_of_observed_new (u : Option String) (st : PanelState) (id : String)
    (h : observedVideoId u = some id) (hne : some id ≠ st.currentVideoId) :
    connectToCurrentTab u st =
      { st with currentVideoId := some id, statusText := "Connected",
                statusClass := "status connected",
                inputDisabled := false, sendDisabled := false,
                chatHistory := [Entry.msg greetingMessage] } := by
  cases u with
  | none => simp [observedVideoId] at h
  | some url =>
    simp only [observedVideoId] at h
    by_cases hg : (!url.isEmpty && jsIncludes url "youtube.com/watch") = true
    · rw [if_pos hg] at h
      by_cases hv : jsTruthyStrOpt (urlVideoId url) = true
      · rw [if_pos hv] at h
        have hv2 : jsTruthyStrOpt (some id) = true := h ▸ hv
        simp [connectToCurrentTab, hg, hv, h, hne, hv2]
      · rw [if_neg hv] at h
        exact absurd h (by simp)
    · rw [if_neg hg] at h
      exact absurd h (by simp)

theorem handleSendPending_of_guard (st : PanelState)
    (hq : (jsTrim st.inputValue).isEmpty = false)
    (hc : jsTruthyStrOpt st.currentVideoId = true) :
    handleSendPending st = some
      ({ st with inputValue := "", inputDisabled := true, sendDisabled := true,
                 chatHistory := st.chatHistory ++
                   [Entry.msg { text := jsTrim st.inputValue, sender := Sender.user },
                    Entry.loading] },
       { url := "http://localhost:5000/chat", method := "POST",
         contentType := "application/json",
         video_id := st.currentVideoId.getD "", question := jsTrim st.inputValue }) := by
  simp [handleSendPending, hq, hc, appendMessage, appendLoading]

theorem handleSendFinish_eq (outcome : FetchOutcome) (st : PanelState) :
    handleSendFinish outcome st =
      { st with chatHistory := removeFirstLoading st.chatHistory ++
                  [Entry.msg { text := botTextOf outcome, sender := Sender.bot }],
                inputDisabled := false, sendDisabled := false, inputFocused := true } := by
  cases outcome with
  | resolved ok answer err =>
    cases ok <;> simp [handleSendFinish, botTextOf, appendMessage, removeLoading]
  | thrown => simp [handleSendFinish, botTextOf, appendMessage, removeLoading]

theorem handleSend_of_guard (st : PanelState) (outcome : FetchOutcome)
    (hq : (jsTrim st.inputValue).isEmpty = false)
    (hc : jsTruthyStrOpt st.currentVideoId = true)
    (hl : loadingCount st.chatHistory = 0) :
    handleSend outcome st =
      ({ st with inputValue := "", inputDisabled := false, sendDisabled := false,
                 inputFocused := true,
                 chatHistory := st.chatHistory ++
                   [Entry.msg { text := jsTrim st.inputValue, sender := Sender.user },
                    Entry.msg { text := botTextOf outcome, sender := Sender.bot }] },
       [{ url := "http://localhost:5000/chat", method := "POST",
          contentType := "application/json",
          video_id := st.currentVideoId.getD "", question := jsTrim st.inputValue }]) := by
  have h1 : loadingCount (st.chatHistory ++
      [Entry.msg { text := jsTrim st.inputValue, sender := Sender.user }]) = 0 := by
    rw [loadingCount_append, hl]
    rfl
  have h2 := removeFirstLoading_append_loading _ h1
  simp only [List.append_assoc, List.cons_append, List.nil_append] at h2
  simp [handleSend, handleSendPending_of_guard st hq hc, handleSendFinish_eq, h2]

theorem handleSend_noop_of_guard_failure (st : PanelState) (outcome : FetchOutcome)
    (h : jsTrim st.inputValue = "" ∨ st.currentVideoId = none) :
    handleSend outcome st = (st, []) := by
  have hg : ((jsTrim st.inputValue).isEmpty || !jsTruthyStrOpt st.currentVideoId) = true := by
    rcases h with h | h
    · simp [h, String.isEmpty_iff]
    · simp [h, jsTruthyStrOpt]
  simp [handleSend, handleSendPending, hg]

theorem isEmpty_false_of_watch (url : String)
    (hw : jsIncludes url "youtube.com/watch" = true) : url.isEmpty = false := by
  cases he : url.isEmpty with
  | false => rfl
  | true =>
    have h0 : url = "" := (String.isEmpty_iff url).mp he
    rw [h0] at hw
    exact absurd hw (by decide)

/-- C1: reconcile is idempotent on an unchanged video.  For every
sequence of reconciliations all observing a tab URL whose video
identifier equals the current (truthy) Session videoId, the panel state
is unchanged after the whole sequence and after every step of it, so in
particular the message log is never cleared and the conversation is not
reset. -/
theorem reconcile_idempotent_on_unchanged_video (st : PanelState)
    (urls : List (Option String))
    (ht : jsTruthyStrOpt st.currentVideoId = true)
    (h : ∀ u ∈ urls, observedVideoId u = st.currentVideoId) :
    List.foldl (fun s u => connectToCurrentTab u s) st urls = st
    ∧ ∀ n, List.foldl (fun s u => connectToCurrentTab u s) st (urls.take n) = st := by
  have main : ∀ l : List (Option String),
      (∀ u ∈ l, observedVideoId u = st.currentVideoId) →
      List.foldl (fun s u => connectToCurrentTab u s) st l = st := by
    intro l
    induction l with
    | nil => intro _; rfl
    | cons u rest ih =>
      intro hl
      rw [List.foldl_cons, connect_of_observed_same u st (hl u (by simp)) ht]
      exact ih (fun v hv => hl v (by simp [hv]))
  exact ⟨main urls h, fun n => main _ (fun u hu => h u (List.take_subset n urls hu))⟩

theorem reconcile_idempotent_on_unchanged_video_witness :
    List.foldl (fun s u => connectToCurrentTab u s) sampleConnected
      [some "https://www.youtube.com/watch?v=abc123",
       some "https://www.youtube.com/watch?v=abc123"] = sampleConnected
    ∧ ∀ n, List.foldl (fun s u => connectToCurrentTab u s) sampleConnected
      ([some "https://www.youtube.com/watch?v=abc123",
        some "https://www.youtube.com/watch?v=abc123"].take n) = sampleConnected :=
  reconcile_idempotent_on_unchanged_video sampleConnected _ (by decide) (by decide)

/-- C2: a reconciliation observing a watch-page URL whose video
identifier is present and differs from the current videoId connects to
the new video, clears the message log down to exactly the one initial
greeting (which therefore precedes any further message), and enables
both input controls. -/
theorem reconcile_new_video_resets_conversation (u : Option String)
    (st : PanelState) (newId : String)
    (h : observedVideoId u = some newId)
    (hne : some newId ≠ st.currentVideoId) :
    connectToCurrentTab u st =
      { st with currentVideoId := some newId, statusText := "Connected",
                statusClass := "status connected",
                inputDisabled := false, sendDisabled := false,
                chatHistory := [Entry.msg greetingMessage] } :=
  connect_of_observed_new u st newId h hne

theorem reconcile_new_video_resets_conversation_witness :
    connectToCurrentTab (some "https://www.youtube.com/watch?v=abc123") sampleState =
      { sampleState with
          currentVideoId := some "abc123", statusText := "Connected",
          statusClass := "status connected",
          inputDisabled := false, sendDisabled := false,
          chatHistory := [Entry.msg greetingMessage] } :=
  reconcile_new_video_resets_conversation _ sampleState "abc123" (by decide) (by decide)

/-- C6: a reconciliation observing a watch-page URL with no v query
parameter disconnects with reason No Video ID, and one observing a URL
that does not match a YouTube watch page disconnects with reason Not
YouTube; both disable the input controls. -/
theorem reconcile_disconnect_reasons (st : PanelState) (url : String) :
    (jsIncludes url "youtube.com/watch" = true → urlVideoId url = none →
      connectToCurrentTab (some url) st =
        { st with currentVideoId := none, statusText := "No Video ID",
                  statusClass := "status error",
                  inputDisabled := true, sendDisabled := true })
    ∧ (jsIncludes url "youtube.com/watch" = false →
      connectToCurrentTab (some url) st =
        { st with currentVideoId := none, statusText := "Not YouTube",
                  statusClass := "status error",
                  inputDisabled := true, sendDisabled := true }) := by
  constructor
  · intro hw hv
    have hne := isEmpty_false_of_watch url hw
    simp [connectToCurrentTab, hne, hw, hv, jsTruthyStrOpt, handleDisconnect]
  · intro hw
    simp [connectToCurrentTab, hw, handleDisconnect]

theorem reconcile_disconnect_reasons_witness :
    connectToCurrentTab (some "https://www.youtube.com/watch") sampleState =
      { sampleState with
          currentVideoId := none, statusText := "No Video ID",
          statusClass := "status error",
          inputDisabled := true, sendDisabled := true }
    ∧ connectToCurrentTab (some "https://example.com") sampleState =
      { sampleState with
          currentVideoId := none, statusText := "Not YouTube",
          statusClass := "status error",
          inputDisabled := true, sendDisabled := true } :=
  ⟨(reconcile_disconnect_reasons sampleState "https://www.youtube.com/watch").1
      (by decide) (by decide),
   (reconcile_disconnect_reasons sampleState "https://example.com").2 (by decide)⟩

/-- C9: every transition to Disconnected clears currentVideoId, so a
later reconciliation that observes the very video the user was on before
the disconnect is treated as a video change: the message log is reset to
the single fresh greeting and the conversation is not preserved. -/
theorem disconnect_clears_videoId_so_reconnect_resets
    (reason : String) (st : PanelState) (u : Option String) (id : String)
    (h : observedVideoId u = some id) :
    (handleDisconnect reason st).currentVideoId = none
    ∧ connectToCurrentTab u (handleDisconnect reason st) =
      { handleDisconnect reason st with
        currentVideoId := some id, statusText := "Connected",
        statusClass := "status connected",
        inputDisabled := false, sendDisabled := false,
        chatHistory := [Entry.msg greetingMessage] } :=
  ⟨rfl, connect_of_observed_new u (handleDisconnect reason st) id h
    (by simp [handleDisconnect])⟩

theorem disconnect_clears_videoId_so_reconnect_resets_witness :
    (handleDisconnect "Not YouTube" sampleConnected).currentVideoId = none
    ∧ connectToCurrentTab (some "https://www.youtube.com/watch?v=abc123")
        (handleDisconnect "Not YouTube" sampleConnected) =
      { handleDisconnect "Not YouTube" sampleConnected with
        currentVideoId := some "abc123", statusText := "Connected",
        statusClass := "status connected",
        inputDisabled := false, sendDisabled := false,
        chatHistory := [Entry.msg greetingMessage] } :=
  disconnect_clears_videoId_so_reconnect_resets "Not YouTube" sampleConnected _
    "abc123" (by decide)

/-- C10: a watch-page URL whose v parameter is present but empty is
treated as carrying no video identifier: the reconciliation disconnects
with reason No Video ID instead of connecting with an empty videoId. -/
theorem reconcile_empty_v_param_disconnects (st : PanelState) (url : String)
    (hw : jsIncludes url "youtube.com/watch" = true)
    (hv : urlVideoId url = some "") :
    connectToCurrentTab (some url) st =
      { st with currentVideoId := none, statusText := "No Video ID",
                statusClass := "status error",
                inputDisabled := true, sendDisabled := true } := by
  have hne := isEmpty_false_of_watch url hw
  have hf : jsTruthyStrOpt (some "") = false := by decide
  simp [connectToCurrentTab, hne, hw, hv, hf, handleDisconnect]

theorem reconcile_empty_v_param_disconnects_witness :
    connectToCurrentTab (some "https://www.youtube.com/watch?v=") sampleState =
      { sampleState with
          currentVideoId := none, statusText := "No Video ID",
          statusClass := "status error",
          inputDisabled := true, sendDisabled := true } :=
  reconcile_empty_v_param_disconnects sampleState "https://www.youtube.com/watch?v="
    (by decide) (by decide)

/-- C3: a question that is non-empty after trimming, submitted while the
session is connected (truthy currentVideoId, the condition the code
itself checks and reconciliation establishes exactly when Connected),
appends exactly one user message followed by exactly one bot message
(the answer or an error text, by outcome), and on both the success and
the failure path the input controls end enabled with focus returned to
the input field. -/
theorem submit_appends_user_then_bot (st : PanelState) (outcome : FetchOutcome)
    (hq : (jsTrim st.inputValue).isEmpty = false)
    (hc : jsTruthyStrOpt st.currentVideoId = true)
    (hl : loadingCount st.chatHistory = 0) :
    (handleSend outcome st).1.chatHistory
        = st.chatHistory ++
            [Entry.msg { text := jsTrim st.inputValue, sender := Sender.user },
             Entry.msg { text := botTextOf outcome, sender := Sender.bot }]
    ∧ (handleSend outcome st).1.inputDisabled = false
    ∧ (handleSend outcome st).1.sendDisabled = false
    ∧ (handleSend outcome st).1.inputFocused = true := by
  rw [handleSend_of_guard st outcome hq hc hl]
  exact ⟨rfl, rfl, rfl, rfl⟩

theorem submit_appends_user_then_bot_witness :
    (handleSend (FetchOutcome.resolved true (some "It is a tutorial.") none)
        sampleConnected).1.chatHistory
        = sampleConnected.chatHistory ++
            [Entry.msg { text := jsTrim sampleConnected.inputValue, sender := Sender.user },
             Entry.msg { text := botTextOf (FetchOutcome.resolved true
                           (some "It is a tutorial.") none), sender := Sender.bot }]
    ∧ (handleSend (FetchOutcome.resolved true (some "It is a tutorial.") none)
        sampleConnected).1.inputDisabled = false
    ∧ (handleSend (FetchOutcome.resolved true (some "It is a tutorial.") none)
        sampleConnected).1.sendDisabled = false
    ∧ (handleSend (FetchOutcome.resolved true (some "It is a tutorial.") none)
        sampleConnected).1.inputFocused = true :=
  submit_appends_user_then_bot sampleConnected
    (FetchOutcome.resolved true (some "It is a tutorial.") none)
    (by decide) (by decide) (by decide)

/-- C4: per submission exactly one thinking placeholder exists while the
request is outstanding and none survives its completion on any outcome;
in the outstanding state both input controls are disabled, and a further
submission from that state is a no-op, so at most one question/answer
exchange is pending at a time. -/
theorem submit_single_placeholder_single_flight (st stP : PanelState)
    (req : ChatRequest) (outcome : FetchOutcome)
    (hl : loadingCount st.chatHistory = 0)
    (hp : handleSendPending st = some (stP, req)) :
    loadingCount stP.chatHistory = 1
    ∧ stP.inputDisabled = true
    ∧ stP.sendDisabled = true
    ∧ loadingCount (handleSendFinish outcome stP).chatHistory = 0
    ∧ handleSendPending stP = none := by
  simp only [handleSendPending] at hp
  by_cases hg : ((jsTrim st.inputValue).isEmpty || !jsTruthyStrOpt st.currentVideoId) = true
  · rw [if_pos hg] at hp
    exact absurd hp (by simp)
  · rw [if_neg hg] at hp
    simp only [Option.some.injEq, Prod.mk.injEq, appendMessage, appendLoading] at hp
    obtain ⟨rfl, rfl⟩ := hp
    have hc1 : loadingCount ((st.chatHistory ++
        [Entry.msg { text := jsTrim st.inputValue, sender := Sender.user }]) ++
        [Entry.loading]) = 1 := by
      rw [loadingCount_append, loadingCount_append, hl]
      rfl
    have he : (jsTrim "").isEmpty = true := by decide
    refine ⟨by simpa using hc1, rfl, rfl, ?_, by simp [handleSendPending, he]⟩
    rw [handleSendFinish_eq, loadingCount_append, loadingCount_removeFirstLoading]
    simp only [List.append_assoc, List.singleton_append] at hc1
    simp [hc1, loadingCount]

theorem submit_single_placeholder_single_flight_witness :
    loadingCount samplePending.chatHistory = 1
    ∧ samplePending.inputDisabled = true
    ∧ samplePending.sendDisabled = true
    ∧ loadingCount (handleSendFinish FetchOutcome.thrown samplePending).chatHistory = 0
    ∧ handleSendPending samplePending = none :=
  submit_single_placeholder_single_flight sampleConnected samplePending
    sampleRequest FetchOutcome.thrown (by decide) (by decide)

/-- C5: when a submission ends in an error response the placeholder is
removed and the one appended bot message reads Error: followed by the
server-provided error field, with the Server error fallback when that
field is absent or empty; when the request throws (service unreachable)
the appended bot message is the generic could-not-connect text. -/
theorem submit_error_messages (st : PanelState) (answer err : Option String)
    (hq : (jsTrim st.inputValue).isEmpty = false)
    (hc : jsTruthyStrOpt st.currentVideoId = true)
    (hl : loadingCount st.chatHistory = 0) :
    ((handleSend (FetchOutcome.resolved false answer err) st).1.chatHistory
        = st.chatHistory ++
            [Entry.msg { text := jsTrim st.inputValue, sender := Sender.user },
             Entry.msg { text := "Error: " ++ jsOrString err "Server error",
                         sender := Sender.bot }])
    ∧ ((handleSend FetchOutcome.thrown st).1.chatHistory
        = st.chatHistory ++
            [Entry.msg { text := jsTrim st.inputValue, sender := Sender.user },
             Entry.msg { text := "Error: Could not connect to server. Make sure app.py is running.",
                         sender := Sender.bot }]) := by
  constructor
  · rw [handleSend_of_guard st (FetchOutcome.resolved false answer err) hq hc hl]
    simp [botTextOf]
  · rw [handleSend_of_guard st FetchOutcome.thrown hq hc hl]
    simp [botTextOf]

theorem submit_error_messages_witness :
    ((handleSend (FetchOutcome.resolved false none (some "Video not found"))
        sampleConnected).1.chatHistory
        = sampleConnected.chatHistory ++
            [Entry.msg { text := jsTrim sampleConnected.inputValue, sender := Sender.user },
             Entry.msg { text := "Error: " ++ jsOrString (some "Video not found") "Server error",
                         sender := Sender.bot }])
    ∧ ((handleSend FetchOutcome.thrown sampleConnected).1.chatHistory
        = sampleConnected.chatHistory ++
            [Entry.msg { text := jsTrim sampleConnected.inputValue, sender := Sender.user },
             Entry.msg { text := "Error: Could not connect to server. Make sure app.py is running.",
                         sender := Sender.bot }]) :=
  submit_error_messages sampleConnected none (some "Video not found")
    (by decide) (by decide) (by decide)

/-- C7: a submission whose question is empty after trimming, or made
while the session is disconnected (currentVideoId cleared to null), is
re-checked programmatically inside handleSend and is a no-op: the state
is unchanged, so no message is appended and no placeholder is shown, and
no request is issued. -/
theorem submit_noop_on_failed_preconditions (st : PanelState)
    (outcome : FetchOutcome)
    (h : jsTrim st.inputValue = "" ∨ st.currentVideoId = none) :
    handleSend outcome st = (st, []) :=
  handleSend_noop_of_guard_failure st outcome h

theorem submit_noop_on_failed_preconditions_witness :
    handleSend FetchOutcome.thrown { sampleState with inputValue := "hi" } =
      ({ sampleState with inputValue := "hi" }, []) :=
  submit_noop_on_failed_preconditions { sampleState with inputValue := "hi" }
    FetchOutcome.thrown (Or.inr rfl)

/-- C8: a valid submission issues exactly one HTTP request: a POST to
the fixed local chat endpoint with JSON content type, whose body is
exactly the current videoId under the key video_id together with the
trimmed question under the key question. -/
theorem submit_issues_one_post_request (st : PanelState)
    (outcome : FetchOutcome) (vid : String)
    (hq : (jsTrim st.inputValue).isEmpty = false)
    (hc : st.currentVideoId = some vid)
    (hv : vid.isEmpty = false) :
    (handleSend outcome st).2 =
      [{ url := "http://localhost:5000/chat", method := "POST",
         contentType := "application/json",
         video_id := vid, question := jsTrim st.inputValue }] := by
  have ht : jsTruthyStrOpt st.currentVideoId = true := by
    rw [hc]
    simp [jsTruthyStrOpt, hv]
  simp [handleSend, handleSendPending_of_guard st hq ht, hc]

theorem submit_issues_one_post_request_witness :
    (handleSend (FetchOutcome.resolved true (some "It is a tutorial.") none)
        sampleConnected).2 =
      [{ url := "http://localhost:5000/chat", method := "POST",
         contentType := "application/json",
         video_id := "abc123", question := jsTrim sampleConnected.inputValue }] :=
  submit_issues_one_post_request sampleConnected
    (FetchOutcome.resolved true (some "It is a tutorial.") none) "abc123"
    (by decide) (by decide) (by decide)

end YtChatbot
